import Mathlib

/-!
Shallow embedding of `src/index.ts` of multer-cloud-storage: a multer
storage engine streaming uploads to IBM Cloud Object Storage.

The untyped JavaScript values that matter to the claims are modelled
explicitly: a string-or-undefined value type for object keys, `||`
defaulting on optional strings, and the effect traces (SDK requests
issued, callback invocations) of the two engine methods.
-/

namespace MulterCloudStorage

/-- A JavaScript value in a position the code treats as a string key:
either an actual string or `undefined`. -/
inductive JSValue where
  | str (s : String)
  | undefined
deriving DecidableEq, Repr

/-- JavaScript `v || d` on an optional string: `undefined` and the empty
string are falsy, any other string is kept. -/
def jsOrStr (v : Option String) (d : String) : String :=
  match v with
  | some s => if s = "" then d else s
  | none => d

/-- The Express request object; its contents are irrelevant to the engine,
only its identity is threaded to the key function. -/
structure Request where
  id : Nat
deriving DecidableEq, Repr

/-- An `Express.Multer.File` as `_handleFile` receives it; `stream` stands
for the identity of the file's readable stream. -/
structure MulterFile where
  stream : Nat
  fieldname : String
deriving DecidableEq, Repr

/-- The extended `File` record `_removeFile` receives (multer file plus the
storage fields this engine added). -/
structure File where
  stream : Nat
  bucket : String
  key : String
  location : String
  etag : String
deriving DecidableEq, Repr

/-- The `StorageParams` interface from `src/index.ts`. The `fileFilter` option is handed
to the middleware untouched and never read by the engine, so it is not
modelled. Optional fields are `Option`; an absent field is `none`. -/
structure StorageParams where
  key : Option (Request → MulterFile → String)
  fieldName : Option String
  maxCount : Option Nat
  bucket : String
  endpoint : String
  apiKeyId : String
  serviceInstanceId : String
  signatureVersion : Option String

/-- The `StorageParamError` interface from `src/index.ts`. -/
structure StorageParamError where
  param : String
  message : String
deriving DecidableEq, Repr

/-- The list of errors `validateStorageParams` accumulates by pushing, in
source order: endpoint, bucket, apiKeyId, serviceInstanceId. A required
string parameter fails its `!params.x` check exactly when it is empty. -/
def validateErrors (params : StorageParams) : List StorageParamError :=
  (if params.endpoint = "" then
    [{ param := "endpoint",
       message := "Failed to upload file: endpoint cannot be empty." }]
   else []) ++
  (if params.bucket = "" then
    [{ param := "bucket",
       message := "Failed to upload file: bucket name cannot be empty." }]
   else []) ++
  (if params.apiKeyId = "" then
    [{ param := "apiKeyId",
       message := "Failed to upload file: Failed to upload file: API KEY ID cannot be empty." }]
   else []) ++
  (if params.serviceInstanceId = "" then
    [{ param := "serviceInstanceId",
       message := "Failed to upload file: Service Instance Id cannot be empty." }]
   else [])

/-- Model of `validateStorageParams`: throws the accumulated error array when it is
non-empty. The thrown value is the plain array of `StorageParamError`
records itself, which the model's error channel carries directly. -/
def validateStorageParams (params : StorageParams) :
    Except (List StorageParamError) Unit :=
  let errors := validateErrors params
  if errors.length > 0 then .error errors else .ok ()

/-- The required parameters in the order `validateStorageParams` checks
them. -/
def requiredParamOrder : List String :=
  ["endpoint", "bucket", "apiKeyId", "serviceInstanceId"]

/-- Whether the named required parameter is empty in `params`. -/
def requiredParamEmpty (params : StorageParams) : String → Bool
  | "endpoint" => params.endpoint = ""
  | "bucket" => params.bucket = ""
  | "apiKeyId" => params.apiKeyId = ""
  | "serviceInstanceId" => params.serviceInstanceId = ""
  | _ => false

/-- The names of the empty required parameters, in the fixed check order:
the spec-side description of what the thrown array should list. -/
def emptyRequiredParams (params : StorageParams) : List String :=
  requiredParamOrder.filter (requiredParamEmpty params)

/-- Some required parameter of `params` is empty. -/
def anyRequiredEmpty (params : StorageParams) : Bool :=
  params.endpoint = "" || params.bucket = "" ||
  params.apiKeyId = "" || params.serviceInstanceId = ""

theorem validateErrors_params_eq (params : StorageParams) :
    (validateErrors params).map (·.param) = emptyRequiredParams params := by
  unfold validateErrors emptyRequiredParams requiredParamOrder requiredParamEmpty
  by_cases h1 : params.endpoint = "" <;>
    by_cases h2 : params.bucket = "" <;>
      by_cases h3 : params.apiKeyId = "" <;>
        by_cases h4 : params.serviceInstanceId = "" <;>
          simp [h1, h2, h3, h4]

theorem validateErrors_nil_iff (params : StorageParams) :
    validateErrors params = [] ↔ anyRequiredEmpty params = false := by
  unfold validateErrors anyRequiredEmpty
  by_cases h1 : params.endpoint = "" <;>
    by_cases h2 : params.bucket = "" <;>
      by_cases h3 : params.apiKeyId = "" <;>
        by_cases h4 : params.serviceInstanceId = "" <;>
          simp [h1, h2, h3, h4]

/-- One lowercase hexadecimal digit, as Node's `Buffer.toString("hex")`
produces. -/
def hexDigit (n : Nat) : Char :=
  if n < 10 then Char.ofNat (48 + n) else Char.ofNat (87 + n)

/-- The two-digit lowercase hex encoding of one byte. -/
def hexByte (b : Nat) : List Char :=
  [hexDigit (b / 16 % 16), hexDigit (b % 16)]

/-- Node `buf.toString("hex")`: the concatenated hex encoding of the bytes. -/
def hexEncode (bytes : List Nat) : String :=
  String.mk (bytes.flatMap hexByte)

/-- The value the default generator `getFilename` passes to its third
(callback) argument on success: the hex encoding of the 16 random bytes
`crypto.randomBytes(16, ...)` produced. -/
def getFilenameCallbackArg (randomBytes : List Nat) : String :=
  hexEncode randomBytes

/-- The synchronous return value of calling `getFilename`: its arrow-function
body contains no return statement (the name only ever flows through the
callback), so a call to it evaluates to `undefined`. -/
def getFilenameReturn : JSValue :=
  JSValue.undefined

/-- The function stored in `this.getObjectKey` by the constructor:
`opts.key || getFilename`. A user function is truthy; `undefined` selects
the default generator. -/
inductive ObjectKeyFn where
  | user (f : Request → MulterFile → String)
  | defaultGen

/-- Calling the stored key function the way `_handleFile` does:
`this.getObjectKey(req, file)`, with two arguments and no callback. A user
function returns its string; `getFilename` (which expects a third callback
argument) returns `undefined`. -/
def callObjectKey (fn : ObjectKeyFn) (req : Request) (file : MulterFile) :
    JSValue :=
  match fn with
  | .user f => .str (f req file)
  | .defaultGen => getFilenameReturn

/-- The `ibm.S3` service object as the constructor configures it. -/
structure CosClient where
  endpoint : String
  apiKeyId : String
  serviceInstanceId : String
  signatureVersion : Option String

/-- The `CosStorage` engine state: the fields the constructor assigns. -/
structure CosStorage where
  cos : CosClient
  bucket : String
  getObjectKey : ObjectKeyFn

/-- The field assignments of the `CosStorage` constructor, performed once
validation has passed: `this.bucket`, `this.getObjectKey = opts.key ||
getFilename`, and the `ibm.S3` client configuration. -/
def mkCosStorage (opts : StorageParams) : CosStorage :=
  { bucket := opts.bucket
    getObjectKey :=
      match opts.key with
      | some f => .user f
      | none => .defaultGen
    cos :=
      { endpoint := opts.endpoint
        apiKeyId := opts.apiKeyId
        serviceInstanceId := opts.serviceInstanceId
        signatureVersion := opts.signatureVersion } }

/-- Model of `new CosStorage(opts)`: validate (which may throw), then assign the
fields and construct the `ibm.S3` client. The second component counts the
`ibm.S3` constructions performed, so the trace shows none happens when
validation throws first. -/
def cosStorageNew (opts : StorageParams) :
    Except (List StorageParamError) CosStorage × Nat :=
  match validateStorageParams opts with
  | .error errs => (.error errs, 0)
  | .ok () => (.ok (mkCosStorage opts), 1)

/-- The params object `_handleFile` passes to `this.cos.upload`. -/
structure UploadParams where
  Bucket : String
  Key : JSValue
  Body : Nat
deriving DecidableEq, Repr

/-- One `httpUploadProgress` event; `total := 0` models an event whose
`total` field is absent or zero (falsy). -/
structure ProgressEvent where
  total : Nat
deriving DecidableEq, Repr

/-- The SDK's upload response, as read by the success branch. -/
structure UploadResponse where
  ETag : String
  Location : String
  Key : String
  Bucket : String
deriving DecidableEq, Repr

/-- An error value the SDK rejects or fails with. -/
structure SdkError where
  msg : String
deriving DecidableEq, Repr

/-- One observed run of the SDK upload object `_handleFile` creates: the
`httpUploadProgress` events it emits, then the settled promise. -/
structure UploadRun where
  events : List ProgressEvent
  result : Except SdkError UploadResponse
deriving Repr

/-- The object-info record `_handleFile` builds for the success callback. -/
structure FileInfo where
  etag : String
  location : String
  key : String
  bucket : String
  size : Nat
deriving DecidableEq, Repr

/-- One invocation of the `_handleFile` completion callback:
`callback(null, info)` or `callback(err)`. -/
inductive HandleCallbackCall where
  | ok (info : FileInfo)
  | err (e : SdkError)
deriving DecidableEq, Repr

/-- The progress handler's accumulation: `fileSize` starts at 0 and is
overwritten by `event.total` whenever that value is truthy. -/
def accumulateFileSize (events : List ProgressEvent) : Nat :=
  events.foldl (fun fileSize ev => if ev.total ≠ 0 then ev.total else fileSize) 0

/-- The effects of one `_handleFile` call: the upload requests delegated to
the SDK and the completion-callback invocations. -/
structure HandleFileOutcome where
  uploads : List UploadParams
  calls : List HandleCallbackCall
deriving DecidableEq, Repr

/-- Model of `_handleFile`: compute the key by calling `this.getObjectKey(req, file)`,
delegate one upload with that key, this engine's bucket and the file's
stream, accumulate `fileSize` over the progress events, and invoke the
callback once with the settled promise's outcome. -/
def handleFile (engine : CosStorage) (req : Request) (file : MulterFile)
    (run : UploadRun) : HandleFileOutcome :=
  let key := callObjectKey engine.getObjectKey req file
  let params : UploadParams :=
    { Bucket := engine.bucket, Key := key, Body := file.stream }
  let fileSize := accumulateFileSize run.events
  { uploads := [params]
    calls :=
      match run.result with
      | .ok res =>
        [.ok { etag := res.ETag, location := res.Location, key := res.Key,
               bucket := res.Bucket, size := fileSize }]
      | .error e => [.err e] }

/-- The params object `_removeFile` passes to `this.cos.deleteObject`. -/
structure DeleteParams where
  Bucket : String
  Key : String
deriving DecidableEq, Repr

/-- Model of `_removeFile`: delegate one delete for the file's bucket and key, then
run the node-style callback body on the SDK's `err` (`none` on success):
`if (!err) callback(null);` falls through — there is no `else` or
`return` — so `callback(err)` also runs, and a successful delete invokes
the callback twice. The result is the delete requests issued and the list
of callback invocations (each entry the error argument passed). -/
def removeFile (engine : CosStorage) (req : Request) (file : File)
    (deleteErr : Option SdkError) :
    List DeleteParams × List (Option SdkError) :=
  let params : DeleteParams := { Bucket := file.bucket, Key := file.key }
  let calls :=
    match deleteErr with
    | none => [none, none]
    | some e => [some e]
  ([params], calls)

/-- The inner `StorageParams` object both helper functions pass to
`new CosStorage(...)`: the four credentials and `key` forwarded,
`signatureVersion: params.signatureVersion || "iam"`, and no
fieldName/maxCount entries. -/
def innerStorageOpts (params : StorageParams) : StorageParams :=
  { key := params.key
    fieldName := none
    maxCount := none
    bucket := params.bucket
    endpoint := params.endpoint
    apiKeyId := params.apiKeyId
    serviceInstanceId := params.serviceInstanceId
    signatureVersion := some (jsOrStr params.signatureVersion "iam") }

/-- What `cosSingleUpload` returns: a multer instance configured with the
engine and `.single(params.fieldName || "file")`. -/
structure SingleUploadSetup where
  storage : CosStorage
  fieldName : String

/-- What `cosMultipleUpload` returns: a multer instance configured with the
engine and `.array(params.fieldName || "files", params.maxCount)`. -/
structure ArrayUploadSetup where
  storage : CosStorage
  fieldName : String
  maxCount : Option Nat

/-- Model of `cosSingleUpload`: validate (which may throw), build the engine, and
register the single-file field. The second component counts `ibm.S3`
constructions, as in `cosStorageNew`. -/
def cosSingleUpload (params : StorageParams) :
    Except (List StorageParamError) SingleUploadSetup × Nat :=
  match validateStorageParams params with
  | .error errs => (.error errs, 0)
  | .ok () =>
    match cosStorageNew (innerStorageOpts params) with
    | (.error errs, n) => (.error errs, n)
    | (.ok storage, n) =>
      (.ok { storage := storage, fieldName := jsOrStr params.fieldName "file" }, n)

/-- Model of `cosMultipleUpload`: validate (which may throw), build the engine, and
register the array field with the optional max count. -/
def cosMultipleUpload (params : StorageParams) :
    Except (List StorageParamError) ArrayUploadSetup × Nat :=
  match validateStorageParams params with
  | .error errs => (.error errs, 0)
  | .ok () =>
    match cosStorageNew (innerStorageOpts params) with
    | (.error errs, n) => (.error errs, n)
    | (.ok storage, n) =>
      (.ok { storage := storage, fieldName := jsOrStr params.fieldName "files",
             maxCount := params.maxCount }, n)

/-- One method call on a constructed engine, with the SDK behaviour
observed during it. -/
inductive EngineOp where
  | handle (req : Request) (file : MulterFile) (run : UploadRun)
  | remove (req : Request) (file : File) (deleteErr : Option SdkError)

/-- Executing one engine method: the engine's fields are never assigned to
by `_handleFile` or `_removeFile`, so the state after the call is the state
before it; the second component is the upload requests the call issued. -/
def engineStep (engine : CosStorage) (op : EngineOp) :
    CosStorage × List UploadParams :=
  match op with
  | .handle req file run => (engine, (handleFile engine req file run).uploads)
  | .remove _req _file _deleteErr => (engine, [])

/-- Executing engine method calls from an intermediate state, collecting
the upload requests issued along the way. -/
def engineRunAux (st : CosStorage × List UploadParams) (ops : List EngineOp) :
    CosStorage × List UploadParams :=
  match ops with
  | [] => st
  | op :: rest =>
    let next := engineStep st.1 op
    engineRunAux (next.1, st.2 ++ next.2) rest

/-- Executing a sequence of engine method calls, collecting every upload
request issued along the way. -/
def engineRun (engine : CosStorage) (ops : List EngineOp) :
    CosStorage × List UploadParams :=
  engineRunAux (engine, []) ops

/-- Spec-side reading of the progress accumulation: the `total` of the last
event whose `total` was truthy, if any. -/
def lastTruthyTotalAux : List ProgressEvent → Option Nat
  | [] => none
  | ev :: rest =>
    match lastTruthyTotalAux rest with
    | some t => some t
    | none => if ev.total ≠ 0 then some ev.total else none

/-- Spec-side reported size: the last truthy `total`, or 0 when no progress
event carried one. -/
def lastTruthyTotal (events : List ProgressEvent) : Nat :=
  (lastTruthyTotalAux events).getD 0

theorem foldl_size_eq_lastTruthyAux (l : List ProgressEvent) :
    ∀ a : Nat,
      l.foldl (fun fileSize ev => if ev.total ≠ 0 then ev.total else fileSize) a
        = (lastTruthyTotalAux l).getD a := by
  induction l with
  | nil => intro a; rfl
  | cons ev rest ih =>
    intro a
    simp only [List.foldl_cons, lastTruthyTotalAux, ih]
    cases h : lastTruthyTotalAux rest with
    | some t => simp
    | none =>
      by_cases ht : ev.total ≠ 0 <;> simp [ht]

theorem accumulateFileSize_eq_lastTruthyTotal (events : List ProgressEvent) :
    accumulateFileSize events = lastTruthyTotal events := by
  unfold accumulateFileSize lastTruthyTotal
  exact foldl_size_eq_lastTruthyAux events 0

/-! Concrete values for the closed evaluations below. -/

def sampleReq : Request := { id := 1 }

def sampleFile : MulterFile := { stream := 7, fieldname := "file" }

def sampleParams : StorageParams :=
  { key := none, fieldName := none, maxCount := none,
    bucket := "b", endpoint := "e", apiKeyId := "a",
    serviceInstanceId := "s", signatureVersion := none }

def sampleEngine : CosStorage :=
  { cos := { endpoint := "e", apiKeyId := "a", serviceInstanceId := "s",
             signatureVersion := none },
    bucket := "b", getObjectKey := .defaultGen }

def sampleOkRun : UploadRun :=
  { events := [{ total := 0 }, { total := 5 }],
    result := .ok { ETag := "t", Location := "l", Key := "k", Bucket := "b" } }

def sampleRemoveTarget : File :=
  { stream := 7, bucket := "b", key := "k", location := "l", etag := "t" }

def badParams : StorageParams :=
  { sampleParams with endpoint := "" }

theorem validate_ok_iff (params : StorageParams) :
    validateStorageParams params = .ok () ↔ validateErrors params = [] := by
  constructor
  · intro hok
    by_contra hne
    have hlen : (validateErrors params).length > 0 := List.length_pos.mpr hne
    simp [validateStorageParams, hlen] at hok
  · intro hnil
    simp [validateStorageParams, hnil]

theorem validate_error_eq (params : StorageParams)
    (errs : List StorageParamError)
    (h : validateStorageParams params = .error errs) :
    errs = validateErrors params ∧ validateErrors params ≠ [] := by
  by_cases hlen : (validateErrors params).length > 0
  · simp [validateStorageParams, hlen] at h
    exact ⟨h.symm, List.length_pos.mp hlen⟩
  · simp [validateStorageParams, hlen] at h

/-- C1: the claim says an engine constructed without `opts.key` sends a
random hex string as the object key. The code does not: `_handleFile`
calls `this.getObjectKey(req, file)` synchronously, but the default
`getFilename` is callback-style and returns `undefined` (its hex name only
ever goes to a third callback argument that is never passed), so the
delegated upload's Key is `undefined`. This theorem evaluates the model at
the failing input. -/
theorem handleFile_default_key_is_undefined :
    ((cosStorageNew sampleParams).1.map
      (fun engine =>
        (handleFile engine sampleReq sampleFile
          { events := [], result := .error { msg := "network failure" } }).uploads.map
          (fun u => u.Key)))
      = .ok [JSValue.undefined] ∧
    ∀ s : String, JSValue.undefined ≠ JSValue.str s := by
  exact ⟨rfl, fun s h => JSValue.noConfusion h⟩

/-- C2: every `_handleFile` call invokes the completion callback exactly
once — on a fulfilled upload promise with a null error and an object-info
record copying ETag/Location/Key/Bucket from the SDK response and carrying
the tracked size, on a rejected promise with the error alone. -/
theorem handleFile_callback_exactly_once (engine : CosStorage) (req : Request)
    (file : MulterFile) (run : UploadRun) :
    (handleFile engine req file run).calls.length = 1 ∧
    (∀ res : UploadResponse, run.result = .ok res →
      (handleFile engine req file run).calls =
        [.ok { etag := res.ETag, location := res.Location, key := res.Key,
               bucket := res.Bucket, size := accumulateFileSize run.events }]) ∧
    (∀ e : SdkError, run.result = .error e →
      (handleFile engine req file run).calls = [.err e]) := by
  refine ⟨?_, ?_, ?_⟩
  · cases h : run.result <;> simp [handleFile, h]
  · intro res h; simp [handleFile, h]
  · intro e h; simp [handleFile, h]

theorem handleFile_callback_exactly_once_witness :
    (handleFile sampleEngine sampleReq sampleFile sampleOkRun).calls =
      [.ok { etag := "t", location := "l", key := "k", bucket := "b",
             size := 5 }] :=
  (handleFile_callback_exactly_once sampleEngine sampleReq sampleFile
    sampleOkRun).2.1 { ETag := "t", Location := "l", Key := "k", Bucket := "b" }
    rfl

/-- C3: construction — directly or through either helper — throws exactly
when a required parameter is empty; the thrown array has one entry per
empty parameter (its `param` names them, in check order); and on failure
no `ibm.S3` client is constructed (the construction count is 0). -/
theorem construction_validates (opts : StorageParams) :
    ((cosStorageNew opts).1.isOk = true ↔ anyRequiredEmpty opts = false) ∧
    ((cosSingleUpload opts).1.isOk = true ↔ anyRequiredEmpty opts = false) ∧
    ((cosMultipleUpload opts).1.isOk = true ↔ anyRequiredEmpty opts = false) ∧
    (∀ errs, (cosStorageNew opts).1 = .error errs →
      errs.map (fun e => e.param) = emptyRequiredParams opts ∧
      (cosStorageNew opts).2 = 0) ∧
    (∀ errs, (cosSingleUpload opts).1 = .error errs →
      errs.map (fun e => e.param) = emptyRequiredParams opts ∧
      (cosSingleUpload opts).2 = 0) ∧
    (∀ errs, (cosMultipleUpload opts).1 = .error errs →
      errs.map (fun e => e.param) = emptyRequiredParams opts ∧
      (cosMultipleUpload opts).2 = 0) := by
  have hinner : validateErrors (innerStorageOpts opts) = validateErrors opts := rfl
  by_cases h : validateErrors opts = []
  · have hv : validateStorageParams opts = .ok () := (validate_ok_iff opts).mpr h
    have hv2 : validateStorageParams (innerStorageOpts opts) = .ok () :=
      (validate_ok_iff (innerStorageOpts opts)).mpr (hinner.trans h)
    have hany : anyRequiredEmpty opts = false := (validateErrors_nil_iff opts).mp h
    refine ⟨?_, ?_, ?_, ?_, ?_, ?_⟩ <;>
      simp [cosStorageNew, cosSingleUpload, cosMultipleUpload, hv, hv2, hany,
        Except.isOk, Except.toBool]
  · have hlen : (validateErrors opts).length > 0 := List.length_pos.mpr h
    have hv : validateStorageParams opts = .error (validateErrors opts) := by
      simp [validateStorageParams, hlen]
    have hany : anyRequiredEmpty opts = true := by
      cases hcase : anyRequiredEmpty opts with
      | false => exact absurd ((validateErrors_nil_iff opts).mpr hcase) h
      | true => rfl
    refine ⟨?_, ?_, ?_, ?_, ?_, ?_⟩
    · simp [cosStorageNew, hv, hany, Except.isOk, Except.toBool]
    · simp [cosSingleUpload, hv, hany, Except.isOk, Except.toBool]
    · simp [cosMultipleUpload, hv, hany, Except.isOk, Except.toBool]
    · intro errs herrs
      have he : validateErrors opts = errs := by
        simpa [cosStorageNew, hv] using herrs
      exact ⟨he ▸ validateErrors_params_eq opts, by simp [cosStorageNew, hv]⟩
    · intro errs herrs
      have he : validateErrors opts = errs := by
        simpa [cosSingleUpload, hv] using herrs
      exact ⟨he ▸ validateErrors_params_eq opts, by simp [cosSingleUpload, hv]⟩
    · intro errs herrs
      have he : validateErrors opts = errs := by
        simpa [cosMultipleUpload, hv] using herrs
      exact ⟨he ▸ validateErrors_params_eq opts, by simp [cosMultipleUpload, hv]⟩

theorem construction_validates_witness :
    ([({ param := "endpoint",
         message := "Failed to upload file: endpoint cannot be empty." } :
        StorageParamError)].map (fun e => e.param)
      = emptyRequiredParams badParams) ∧
    (cosStorageNew badParams).2 = 0 :=
  (construction_validates badParams).2.2.2.1 _ rfl

/-- C4: the claim says the `_removeFile` callback runs exactly once. The
code's success branch has no `else` or `return` after `callback(null)`, so
`callback(err)` also runs with `err = null`: a successful delete invokes
the callback twice. This theorem evaluates the model at the failing
input. -/
theorem removeFile_success_double_callback :
    (removeFile sampleEngine sampleReq sampleRemoveTarget none).2 =
      [none, none] ∧
    (removeFile sampleEngine sampleReq sampleRemoveTarget none).2.length ≠ 1 :=
  ⟨rfl, by decide⟩

/-- C5: every `_handleFile` call delegates exactly one upload to the SDK,
with Bucket the engine's constructed bucket and Body the file's stream; the
delegated uploads are the same whatever the SDK run does, so a failed
upload is never retried. -/
theorem handleFile_single_upload (engine : CosStorage) (req : Request)
    (file : MulterFile) (run : UploadRun) :
    (handleFile engine req file run).uploads.length = 1 ∧
    ((handleFile engine req file run).uploads.all
      (fun u => u.Bucket == engine.bucket && u.Body == file.stream)) = true ∧
    (∀ run' : UploadRun,
      (handleFile engine req file run').uploads =
        (handleFile engine req file run).uploads) := by
  refine ⟨rfl, ?_, fun run' => rfl⟩
  simp [handleFile]

/-- C6: the size in the success callback is the `total` of the last progress
event that carried a truthy `total`, and 0 when none did. -/
theorem handleFile_size_last_truthy (engine : CosStorage) (req : Request)
    (file : MulterFile) (run : UploadRun) :
    ∀ info : FileInfo,
      (handleFile engine req file run).calls = [.ok info] →
      info.size = lastTruthyTotal run.events ∧
      (lastTruthyTotalAux run.events = none → info.size = 0) := by
  intro info hcall
  cases hres : run.result with
  | error e => simp [handleFile, hres] at hcall
  | ok res =>
    simp [handleFile, hres] at hcall
    have hsize : info.size = accumulateFileSize run.events := by
      rw [← hcall]
    rw [hsize, accumulateFileSize_eq_lastTruthyTotal]
    exact ⟨rfl, fun hnone => by simp [lastTruthyTotal, hnone]⟩

theorem handleFile_size_last_truthy_witness :
    (handleFile sampleEngine sampleReq sampleFile sampleOkRun).calls =
        [.ok { etag := "t", location := "l", key := "k", bucket := "b",
               size := 5 }] ∧
      (5 : Nat) = lastTruthyTotal sampleOkRun.events :=
  ⟨rfl,
   (handleFile_size_last_truthy sampleEngine sampleReq sampleFile sampleOkRun
      { etag := "t", location := "l", key := "k", bucket := "b", size := 5 }
      rfl).1⟩

/-- C7: every `_removeFile` call delegates exactly one delete to the SDK,
targeting the file record's bucket and key. -/
theorem removeFile_single_delete (engine : CosStorage) (req : Request)
    (file : File) (deleteErr : Option SdkError) :
    (removeFile engine req file deleteErr).1 =
      [{ Bucket := file.bucket, Key := file.key }] := rfl

/-- C8 counterexample: the claim says a user-supplied fieldName is used
unchanged, but supplying the empty string makes `params.fieldName || "file"`
fall back to the default, so "file" is registered instead of "". -/
theorem cosSingleUpload_empty_fieldName_replaced :
    ({ sampleParams with fieldName := some "" } : StorageParams).fieldName
        = some "" ∧
    ((cosSingleUpload { sampleParams with fieldName := some "" }).1.map
        (fun s => s.fieldName)) = .ok "file" ∧
    ("file" : String) ≠ "" :=
  ⟨rfl, rfl, by decide⟩

/-- C8 amended: when fieldName is absent — or supplied as the empty string,
which the `||` default also replaces — cosSingleUpload registers "file" and
cosMultipleUpload registers "files"; signatureVersion is handled the same
way with default "iam" and is passed to the engine's client; any non-empty
supplied value is used unchanged. -/
theorem upload_helpers_defaults (params : StorageParams)
    (h : anyRequiredEmpty params = false) :
    ∃ s m, (cosSingleUpload params).1 = .ok s ∧
      (cosMultipleUpload params).1 = .ok m ∧
      s.fieldName = (match params.fieldName with
        | some fn => if fn = "" then "file" else fn
        | none => "file") ∧
      m.fieldName = (match params.fieldName with
        | some fn => if fn = "" then "files" else fn
        | none => "files") ∧
      s.storage.cos.signatureVersion = some (match params.signatureVersion with
        | some sv => if sv = "" then "iam" else sv
        | none => "iam") ∧
      m.storage.cos.signatureVersion = some (match params.signatureVersion with
        | some sv => if sv = "" then "iam" else sv
        | none => "iam") := by
  have hnil : validateErrors params = [] := (validateErrors_nil_iff params).mpr h
  have hv : validateStorageParams params = .ok () :=
    (validate_ok_iff params).mpr hnil
  have hv2 : validateStorageParams (innerStorageOpts params) = .ok () :=
    (validate_ok_iff (innerStorageOpts params)).mpr hnil
  refine ⟨{ storage := mkCosStorage (innerStorageOpts params),
            fieldName := jsOrStr params.fieldName "file" },
          { storage := mkCosStorage (innerStorageOpts params),
            fieldName := jsOrStr params.fieldName "files",
            maxCount := params.maxCount },
          ?_, ?_, ?_, ?_, ?_, ?_⟩
  · simp [cosSingleUpload, cosStorageNew, hv, hv2]
  · simp [cosMultipleUpload, cosStorageNew, hv, hv2]
  · cases params.fieldName <;> simp [jsOrStr]
  · cases params.fieldName <;> simp [jsOrStr]
  · cases hsv : params.signatureVersion <;>
      simp [mkCosStorage, innerStorageOpts, jsOrStr, hsv]
  · cases hsv : params.signatureVersion <;>
      simp [mkCosStorage, innerStorageOpts, jsOrStr, hsv]

theorem upload_helpers_defaults_witness :
    anyRequiredEmpty sampleParams = false ∧
    (∃ s m, (cosSingleUpload sampleParams).1 = .ok s ∧
      (cosMultipleUpload sampleParams).1 = .ok m ∧
      s.fieldName = "file" ∧
      m.fieldName = "files" ∧
      s.storage.cos.signatureVersion = some "iam" ∧
      m.storage.cos.signatureVersion = some "iam") :=
  ⟨rfl, upload_helpers_defaults sampleParams rfl⟩

theorem engineStep_fst (engine : CosStorage) (op : EngineOp) :
    (engineStep engine op).1 = engine := by
  cases op <;> rfl

theorem engineStep_uploads_bucket (engine : CosStorage) (op : EngineOp) :
    ∀ u ∈ (engineStep engine op).2, u.Bucket = engine.bucket := by
  cases op with
  | handle req file run => intro u hu; simp [engineStep, handleFile] at hu; simp [hu]
  | remove req file deleteErr => intro u hu; simp [engineStep] at hu

theorem engineRunAux_spec (ops : List EngineOp) :
    ∀ (engine : CosStorage) (acc : List UploadParams),
      (engineRunAux (engine, acc) ops).1 = engine ∧
      ∀ u ∈ (engineRunAux (engine, acc) ops).2,
        u ∈ acc ∨ u.Bucket = engine.bucket := by
  induction ops with
  | nil => exact fun engine acc => ⟨rfl, fun u hu => .inl hu⟩
  | cons op rest ih =>
    intro engine acc
    have hstep : engineStep engine op =
        ((engineStep engine op).1, (engineStep engine op).2) := rfl
    have hfst := engineStep_fst engine op
    have hrec := ih (engineStep engine op).1 (acc ++ (engineStep engine op).2)
    have heq : engineRunAux (engine, acc) (op :: rest) =
        engineRunAux ((engineStep engine op).1,
          acc ++ (engineStep engine op).2) rest := rfl
    rw [heq]
    refine ⟨hrec.1.trans hfst, fun u hu => ?_⟩
    rcases hrec.2 u hu with hmem | hbucket
    · rcases List.mem_append.mp hmem with hacc | hnew
      · exact .inl hacc
      · exact .inr (engineStep_uploads_bucket engine op u hnew)
    · exact .inr (hfst ▸ hbucket)

/-- C9: the engine's configuration is fixed at construction — running any
sequence of `_handleFile` / `_removeFile` calls leaves the engine state
(bucket, key function, client) unchanged, and every upload issued along the
way targets the engine's bucket. -/
theorem engine_config_fixed (engine : CosStorage) (ops : List EngineOp) :
    (engineRun engine ops).1 = engine ∧
    ∀ u ∈ (engineRun engine ops).2, u.Bucket = engine.bucket := by
  obtain ⟨h1, h2⟩ := engineRunAux_spec ops engine []
  exact ⟨h1, fun u hu => (h2 u hu).resolve_left (by simp)⟩

theorem engine_config_fixed_witness :
    (engineRun sampleEngine
        [.handle sampleReq sampleFile sampleOkRun,
         .remove sampleReq sampleRemoveTarget none]).1 = sampleEngine ∧
    UploadParams.Bucket
        { Bucket := "b", Key := JSValue.undefined, Body := 7 }
      = sampleEngine.bucket :=
  ⟨(engine_config_fixed sampleEngine
      [.handle sampleReq sampleFile sampleOkRun,
       .remove sampleReq sampleRemoveTarget none]).1,
   (engine_config_fixed sampleEngine
      [.handle sampleReq sampleFile sampleOkRun,
       .remove sampleReq sampleRemoveTarget none]).2
     { Bucket := "b", Key := JSValue.undefined, Body := 7 } (by decide)⟩

/-- C10: the thrown validation value is the plain accumulated array of
`StorageParamError` records itself (the model's error channel carries the
array directly, not an Error wrapper), its entries appear in the fixed
order endpoint, bucket, apiKeyId, serviceInstanceId restricted to the empty
parameters, and all failures travel in that one non-empty throw. -/
theorem thrown_errors_ordered (params : StorageParams)
    (errs : List StorageParamError)
    (h : validateStorageParams params = .error errs) :
    errs = validateErrors params ∧
    errs.map (fun e => e.param)
      = requiredParamOrder.filter (requiredParamEmpty params) ∧
    errs ≠ [] := by
  obtain ⟨heq, hne⟩ := validate_error_eq params errs h
  refine ⟨heq, ?_, heq ▸ hne⟩
  rw [heq]
  exact validateErrors_params_eq params

theorem thrown_errors_ordered_witness :
    ([({ param := "endpoint",
         message := "Failed to upload file: endpoint cannot be empty." } :
        StorageParamError)]
      = validateErrors badParams) ∧
    ([({ param := "endpoint",
         message := "Failed to upload file: endpoint cannot be empty." } :
        StorageParamError)].map (fun e => e.param)
      = requiredParamOrder.filter (requiredParamEmpty badParams)) ∧
    ([({ param := "endpoint",
         message := "Failed to upload file: endpoint cannot be empty." } :
        StorageParamError)] ≠ ([] : List StorageParamError)) :=
  thrown_errors_ordered badParams _ rfl

end MulterCloudStorage
